import Mathlib

/-!
Shallow embedding of `src/bot.py` (a Telegram upload-relay bot) and of
`src/server.py`, together with theorems settling the specification claims.

External library calls (`requests`, `magic`, PIL, the Telegram bot API) are
modelled as environment parameters: each call site that can raise an
exception is represented by an `Except String` value chosen by the
environment, and pure library lookups (MIME sniffing, URL path parsing,
temporary-file naming) are environment-supplied functions.  Python
exceptions are modelled with `Except`: a `.error e` outcome at a call site
propagates exactly as far as the surrounding `try`/`except` of the source.
Timestamps (`time.time()`) are modelled as rationals.
-/

namespace UpBot

/-- `MAX_FILE_SIZE = 2000 * 1024 * 1024` from bot.py line 23. -/
def MAX_FILE_SIZE : Nat := 2000 * 1024 * 1024

/-- Python `str.strip()`: remove leading and trailing whitespace. -/
def pyStrip (s : String) : String :=
  String.mk (((s.data.dropWhile Char.isWhitespace).reverse.dropWhile
    Char.isWhitespace).reverse)

/-- Python `str.startswith(p)`. -/
def startswith (s p : String) : Bool :=
  p.data.isPrefixOf s.data

/-- `is_user_allowed` (bot.py lines 54-56):
`return not ALLOWED_USERS or str(user_id) in ALLOWED_USERS`. -/
def is_user_allowed (allowed : List String) (uid : Int) : Bool :=
  allowed.isEmpty || allowed.contains (toString uid)

/-- The global `user_downloads` map (bot.py line 28), with absent keys read
as `[]` (bot.py lines 61-62 insert `[]` before first use). -/
def RateState : Type := Int → List ℚ

/-- `user_downloads[user_id] = l`: point update of the rate map. -/
def updateState (st : RateState) (uid : Int) (l : List ℚ) : RateState :=
  fun u => if u = uid then l else st u

theorem updateState_same (st : RateState) (uid : Int) (l : List ℚ) :
    updateState st uid l uid = l :=
  if_pos rfl

theorem updateState_other (st : RateState) (uid : Int) (l : List ℚ)
    (u : Int) (hu : u ≠ uid) : updateState st uid l u = st u :=
  if_neg hu

/-- `is_rate_limited` (bot.py lines 58-71): prune entries with
`now - t >= 60`, return `True` without recording `now` when the remaining
count reaches `RATE_LIMIT`, otherwise append `now` and return `False`.
The returned state is the updated `user_downloads` map. -/
def is_rate_limited (limit : Nat) (st : RateState) (uid : Int) (now : ℚ) :
    Bool × RateState :=
  let pruned := (st uid).filter (fun t => decide (now - t < 60))
  if limit ≤ pruned.length then
    (true, updateState st uid pruned)
  else
    (false, updateState st uid (pruned ++ [now]))

/-- Iterated rate-limit checks by one user at the given times, returning the
per-call verdicts and the final state. -/
def runCalls (limit : Nat) (uid : Int) : List ℚ → RateState → List Bool × RateState
  | [], st => ([], st)
  | t :: ts, st =>
    let r := is_rate_limited limit st uid t
    let rest := runCalls limit uid ts r.2
    (r.1 :: rest.1, rest.2)

/-- The observable part of one HTTP response, as `download_file` consumes it:
whether `raise_for_status` raises, the declared `Content-Length` header (read
as `0` when absent, bot.py line 80), the body chunks yielded by
`iter_content`, and an exception raised by the stream after those chunks. -/
structure HttpResp where
  statusError : Option String
  contentLength : Option Nat
  chunks : List (List Nat)
  streamErr : Option String

/-- Environment of one `download_file` call: the outcome of `requests.get`
itself, the unique name `NamedTemporaryFile` would pick, and the
`magic.from_buffer` MIME sniffer. -/
structure FetchEnv where
  get : Except String HttpResp
  tempName : String
  sniff : List Nat → String

/-- A progress callback: receives a percentage, may raise. -/
def ProgressCb : Type := ℚ → Except String Unit

/-- The chunk loop of `download_file` (bot.py lines 87-94): skip falsy
(empty) chunks, accumulate bytes, and after each written chunk invoke the
progress callback when one is given and `file_size > 0`.  Returns the bytes
downloaded, the file content written so far, and the exception raised by
the callback, if any. -/
def chunkLoop (cb : Option ProgressCb) (fileSize : Nat) :
    List (List Nat) → Nat → List Nat → (Nat × List Nat) × Option String
  | [], downloaded, content => ((downloaded, content), none)
  | c :: rest, downloaded, content =>
    if c.isEmpty then
      chunkLoop cb fileSize rest downloaded content
    else
      let downloaded' := downloaded + c.length
      let content' := content ++ c
      match cb with
      | some f =>
        if 0 < fileSize then
          match f ((downloaded' : ℚ) * 100 / (fileSize : ℚ)) with
          | .error e => ((downloaded', content'), some e)
          | .ok _ => chunkLoop cb fileSize rest downloaded' content'
        else
          chunkLoop cb fileSize rest downloaded' content'
      | none => chunkLoop cb fileSize rest downloaded' content'

/-- The body of `download_file`'s `try` block (bot.py lines 76-101).  The
first component is `.ok (file_path, mime_type)` on normal return,
`.ok (none, message)` on the explicit too-large return, and `.error e` when
an exception propagates out of the block.  The second component records the
temporary file left on disk by the block (it is created with
`delete=False`, so it survives both normal return and exceptions raised
after its creation). -/
def download_file_body (maxSize : Nat) (env : FetchEnv) (cb : Option ProgressCb) :
    Except String (Option String × String) × Option String :=
  match env.get with
  | .error e => (.error e, none)
  | .ok r =>
    match r.statusError with
    | some e => (.error e, none)
    | none =>
      let fileSize := r.contentLength.getD 0
      if maxSize < fileSize then
        (.ok (none, "File too large (max 2GB)"), none)
      else
        let res := chunkLoop cb fileSize r.chunks 0 []
        match res.2 with
        | some e => (.error e, some env.tempName)
        | none =>
          match r.streamErr with
          | some e => (.error e, some env.tempName)
          | none =>
            (.ok (some env.tempName, env.sniff (res.1.2.take 2048)), some env.tempName)

/-- `download_file` (bot.py lines 73-104): the `try`/`except Exception`
wrapper around `download_file_body`; any exception is converted to
`(None, str(e))`.  The second component is the temporary file still on
disk when the call returns. -/
def download_file (maxSize : Nat) (env : FetchEnv) (cb : Option ProgressCb) :
    (Option String × String) × Option String :=
  match download_file_body maxSize env cb with
  | (.ok r, t) => (r, t)
  | (.error e, t) => ((none, e), t)

/-- PIL behavior for one request: the bytes produced by the image branch
(open/thumbnail/save, which may raise on decode or encode failure) and by
the video branch (the solid-gray placeholder save, which may raise). -/
structure ThumbEnv where
  imageResult : Except String (List Nat)
  videoResult : Except String (List Nat)

/-- The body of `generate_thumbnail`'s `try` block (bot.py lines 108-122):
`image/*` reencodes the image, `video/*` builds a gray placeholder, any
other type falls through and returns `None`. -/
def generate_thumbnail_body (env : ThumbEnv) (mimeType : String) :
    Except String (Option (List Nat)) :=
  if startswith mimeType "image/" then
    match env.imageResult with
    | .ok b => .ok (some b)
    | .error e => .error e
  else if startswith mimeType "video/" then
    match env.videoResult with
    | .ok b => .ok (some b)
    | .error e => .error e
  else
    .ok none

/-- `generate_thumbnail` (bot.py lines 106-125): the `try`/`except` wrapper;
any exception yields `None`. -/
def generate_thumbnail (env : ThumbEnv) (mimeType : String) : Option (List Nat) :=
  match generate_thumbnail_body env mimeType with
  | .ok r => r
  | .error _ => none

/-- `os.path.basename`: the part of the path after the last slash. -/
def basename (p : String) : String :=
  String.mk ((p.data.reverse.takeWhile (fun c => c != '/')).reverse)

/-- `os.path.basename(urlparse(url).path) or "downloaded_file"`
(bot.py line 171). -/
def fileNameOf (p : String) : String :=
  if basename p = "" then "downloaded_file" else basename p

/-- Which Telegram send call the worker performs. -/
inductive UploadKind where
  | photo
  | video
  | audio
  | document
deriving DecidableEq

/-- One send call as the worker issues it: the kind, the caption, the
thumbnail bytes passed (the `send_audio` call passes no thumbnail), and
whether `supports_streaming` is set (only `send_video` sets it). -/
structure UploadCall where
  kind : UploadKind
  caption : String
  thumb : Option (List Nat)
  supports_streaming : Bool
deriving DecidableEq

/-- The routing block of `download_and_upload` (bot.py lines 186-214). -/
def mkUploadCall (mimeType fileName : String) (thumb : Option (List Nat)) :
    UploadCall :=
  if startswith mimeType "image/" then
    ⟨.photo, "Downloaded: " ++ fileName, thumb, false⟩
  else if startswith mimeType "video/" then
    ⟨.video, "Downloaded: " ++ fileName, thumb, true⟩
  else if startswith mimeType "audio/" then
    ⟨.audio, "Downloaded: " ++ fileName, none, false⟩
  else
    ⟨.document, "Downloaded: " ++ fileName, thumb, false⟩

/-- Environment of one worker task: the fetch environment, the progress
callback (the closure over `bot.edit_message_text`, which may raise), the
outcomes of each Telegram API call site inside `download_and_upload`
(bot.py lines 158-231), the PIL behavior, and `urlparse(url).path`. -/
structure WorkerEnv where
  fetchEnv : FetchEnv
  progress : ProgressCb
  editFetchError : Except String Unit
  editUploading : Except String Unit
  sendResult : Except String Unit
  deleteResult : Except String Unit
  editException : Except String Unit
  thumbEnv : ThumbEnv
  urlPath : String

/-- The thumbnail the worker produces (bot.py lines 174-176): computed only
for `image/*` and `video/*` content. -/
def producedThumb (env : WorkerEnv) (mimeType : String) : Option (List Nat) :=
  if startswith mimeType "image/" || startswith mimeType "video/" then
    generate_thumbnail env.thumbEnv mimeType
  else
    none

/-- Observable outcome of one worker task: the send call performed (if the
pipeline reached one) and whether the request's temporary file is still on
disk when the task ends. -/
structure WorkerOut where
  upload : Option UploadCall
  tempExists : Bool

/-- What the `except` handler (bot.py lines 223-231) leaves on disk when the
temp file exists on entry: it first edits the status message — if that edit
itself raises, the `os.unlink` below it is skipped and the file survives. -/
def exceptHandlerLeaves (env : WorkerEnv) : Bool :=
  match env.editException with
  | .error _ => true
  | .ok _ => false

/-- `download_and_upload` (bot.py lines 158-231).  When `download_file`
returns no path, the worker edits the status message and returns without
touching the temp file it cannot name (`file_path` is `None`, so the
`except` handler's `if file_path and os.path.exists(file_path)` guard also
skips the unlink).  When a path is returned, the worker computes the file
name and thumbnail, edits the status message, performs the routed send
call, unlinks the file and deletes the status message; any exception on
the way lands in the `except` handler, which unlinks the file unless its
own status edit raises first. -/
def download_and_upload (maxSize : Nat) (env : WorkerEnv) : WorkerOut :=
  let fo := download_file maxSize env.fetchEnv (some env.progress)
  match fo.1 with
  | (none, _errMsg) =>
    { upload := none, tempExists := fo.2.isSome }
  | (some _path, mimeType) =>
    let fileName := fileNameOf env.urlPath
    let thumb := producedThumb env mimeType
    match env.editUploading with
    | .error _ => { upload := none, tempExists := exceptHandlerLeaves env }
    | .ok _ =>
      let call := mkUploadCall mimeType fileName thumb
      match env.sendResult with
      | .error _ => { upload := some call, tempExists := exceptHandlerLeaves env }
      | .ok _ => { upload := some call, tempExists := false }

/-- Observable outcome of `handle_url` up to worker submission:
which checks ran, the reply sent, the rate state after the call, and
whether the worker task was submitted to the executor. -/
structure HandleOut where
  accessChecked : Bool
  rateChecked : Bool
  reply : Option String
  newState : RateState
  submitted : Bool

/-- `handle_url` (bot.py lines 127-147): the handler for non-command text
messages.  It calls `is_user_allowed` first, then `is_rate_limited` (which
records the attempt), and only then validates that the stripped text starts
with `http://` or `https://`; on success it sends the starting status
message and submits `download_and_upload` to the executor. -/
def handle_url (allowed : List String) (limit : Nat) (st : RateState)
    (uid : Int) (now : ℚ) (text : String) : HandleOut :=
  if is_user_allowed allowed uid = false then
    { accessChecked := true, rateChecked := false
      reply := some "Sorry, you're not authorized to use this bot."
      newState := st, submitted := false }
  else
    let r := is_rate_limited limit st uid now
    if r.1 then
      { accessChecked := true, rateChecked := true
        reply := some "You're doing too many downloads too fast. Please wait a minute."
        newState := r.2, submitted := false }
    else
      let url := pyStrip text
      if startswith url "http://" || startswith url "https://" then
        { accessChecked := true, rateChecked := true
          reply := some "Starting download...", newState := r.2, submitted := true }
      else
        { accessChecked := true, rateChecked := true
          reply := some "Please send a valid http/https URL."
          newState := r.2, submitted := false }

/-- The whole message pipeline: `handle_url`, then — only when a worker was
submitted — the worker task.  The second component is `none` exactly when
no worker runs, and the worker invokes the Fetcher (`download_file`) as its
first step, so the Fetcher runs iff this component is `some`. -/
def handleMessage (allowed : List String) (limit : Nat) (st : RateState)
    (uid : Int) (now : ℚ) (text : String) (maxSize : Nat) (wenv : WorkerEnv) :
    HandleOut × Option WorkerOut :=
  let h := handle_url allowed limit st uid now text
  (h, if h.submitted then some (download_and_upload maxSize wenv) else none)

/-! ## Claim theorems -/

/-- C7: for every user identifier, `is_user_allowed` returns true when the
configured allow-list is empty, and otherwise returns true iff the string
form of the user identifier appears in the allow-list.  (The check is pure
by construction: it is a plain function of its arguments.) -/
theorem is_user_allowed_spec (allowed : List String) (uid : Int) :
    (allowed = [] → is_user_allowed allowed uid = true) ∧
    (allowed ≠ [] → (is_user_allowed allowed uid = true ↔ toString uid ∈ allowed)) := by
  constructor
  · intro h
    subst h
    rfl
  · intro h
    cases allowed with
    | nil => exact absurd rfl h
    | cons a l =>
      simp [is_user_allowed]

/-- Witness for `is_user_allowed_spec` at concrete inputs. -/
theorem is_user_allowed_spec_w :
    is_user_allowed [] 42 = true ∧
    (is_user_allowed ["7", "9"] 7 = true ↔ toString (7 : Int) ∈ ["7", "9"]) :=
  ⟨(is_user_allowed_spec [] 42).1 rfl,
   (is_user_allowed_spec ["7", "9"] 7).2 (by decide)⟩

/-- C3: when the response declares a `Content-Length` strictly greater than
the configured maximum, `download_file` returns the too-large error and the
temporary file was never created (second component `none`). -/
theorem download_file_too_large (maxSize : Nat) (env : FetchEnv)
    (cb : Option ProgressCb) (r : HttpResp) (n : Nat)
    (hget : env.get = .ok r) (hstatus : r.statusError = none)
    (hcl : r.contentLength = some n) (hgt : maxSize < n) :
    download_file maxSize env cb = ((none, "File too large (max 2GB)"), none) := by
  simp [download_file, download_file_body, hget, hstatus, hcl, hgt]

/-- Response for the too-large witness: a declared size of one byte over a
cap of ten. -/
def respTooLarge : HttpResp :=
  { statusError := none, contentLength := some 11, chunks := [], streamErr := none }

/-- Environment for the too-large witness. -/
def envTooLarge : FetchEnv :=
  { get := .ok respTooLarge, tempName := "/tmp/tmpw1",
    sniff := fun _ => "application/octet-stream" }

/-- Witness for `download_file_too_large`. -/
theorem download_file_too_large_w :
    download_file 10 envTooLarge none = ((none, "File too large (max 2GB)"), none) :=
  download_file_too_large 10 envTooLarge none respTooLarge 11 rfl rfl rfl
    (by norm_num)

/-- C6: `download_file` never raises — whenever the body of its `try` block
raises an exception `e`, the call returns `(None, e)` in place of the
`(path, content_type)` pair, with the same on-disk state. -/
theorem download_file_catches (maxSize : Nat) (env : FetchEnv)
    (cb : Option ProgressCb) (e : String) (t : Option String)
    (h : download_file_body maxSize env cb = (.error e, t)) :
    download_file maxSize env cb = ((none, e), t) := by
  unfold download_file
  rw [h]

/-- Environment for the catch witness: `requests.get` itself raises. -/
def envBoom : FetchEnv :=
  { get := .error "connection refused", tempName := "/tmp/tmpw2",
    sniff := fun _ => "application/octet-stream" }

/-- Witness for `download_file_catches`. -/
theorem download_file_catches_w :
    download_file MAX_FILE_SIZE envBoom none = ((none, "connection refused"), none) :=
  download_file_catches MAX_FILE_SIZE envBoom none "connection refused" none rfl

/-- C8: `generate_thumbnail` returns nothing for a content type that is
neither `image/*` nor `video/*`, and never raises — every exception of its
`try` body is swallowed into `None`. -/
theorem generate_thumbnail_spec (env : ThumbEnv) (mimeType : String) :
    (startswith mimeType "image/" = false → startswith mimeType "video/" = false →
      generate_thumbnail env mimeType = none) ∧
    (∀ e, generate_thumbnail_body env mimeType = .error e →
      generate_thumbnail env mimeType = none) := by
  constructor
  · intro h1 h2
    simp [generate_thumbnail, generate_thumbnail_body, h1, h2]
  · intro e h
    simp [generate_thumbnail, h]

/-- PIL environment whose image branch fails to decode. -/
def thumbEnvBad : ThumbEnv :=
  { imageResult := .error "cannot identify image file", videoResult := .ok [1] }

/-- Witness for `generate_thumbnail_spec`: a `text/plain` input yields no
thumbnail, and a failing decode on an `image/png` input is swallowed. -/
theorem generate_thumbnail_spec_w :
    generate_thumbnail thumbEnvBad "text/plain" = none ∧
    generate_thumbnail thumbEnvBad "image/png" = none :=
  ⟨(generate_thumbnail_spec thumbEnvBad "text/plain").1 (by decide) (by decide),
   (generate_thumbnail_spec thumbEnvBad "image/png").2 "cannot identify image file"
     rfl⟩

/-- Pruning keeps a list unchanged when every entry is within the window. -/
theorem filter_window_eq_self (now : ℚ) (l : List ℚ) (h : ∀ t ∈ l, now - t < 60) :
    l.filter (fun t => decide (now - t < 60)) = l :=
  List.filter_eq_self.mpr (fun a ha => decide_eq_true (h a ha))

/-- `runCalls` decomposes over list append. -/
theorem runCalls_append (limit : Nat) (uid : Int) (ts1 ts2 : List ℚ) (st : RateState) :
    runCalls limit uid (ts1 ++ ts2) st =
      ((runCalls limit uid ts1 st).1 ++
         (runCalls limit uid ts2 (runCalls limit uid ts1 st).2).1,
       (runCalls limit uid ts2 (runCalls limit uid ts1 st).2).2) := by
  induction ts1 generalizing st with
  | nil => simp [runCalls]
  | cons t ts ih => simp [runCalls, ih]

/-- A run of calls all inside one 60-second window is fully admitted while
the stored count stays below the threshold, and the admitted times are
appended in order. -/
theorem runCalls_admits (limit : Nat) (uid : Int) (ts : List ℚ) :
    ∀ (prev : List ℚ) (st : RateState),
      st uid = prev →
      (∀ x ∈ prev, ∀ s ∈ ts, s - x < 60) →
      ts.Pairwise (fun a b => b - a < 60) →
      prev.length + ts.length ≤ limit →
      (runCalls limit uid ts st).1 = List.replicate ts.length false ∧
      (runCalls limit uid ts st).2 uid = prev ++ ts := by
  induction ts with
  | nil =>
    intro prev st hst _ _ _
    simp [runCalls, hst]
  | cons t ts ih =>
    intro prev st hst hprev hpw hlen
    have hfil : (st uid).filter (fun x => decide (t - x < 60)) = prev := by
      rw [hst]
      exact filter_window_eq_self t prev (fun x hx => hprev x hx t (List.mem_cons_self t ts))
    have hlt : ¬ limit ≤ prev.length := by
      simp only [List.length_cons] at hlen
      omega
    have hstep : is_rate_limited limit st uid t = (false, updateState st uid (prev ++ [t])) := by
      simp only [is_rate_limited, hfil, if_neg hlt]
    have ihres := ih (prev ++ [t]) (updateState st uid (prev ++ [t]))
      (updateState_same _ _ _)
      (fun x hx s hs => by
        rcases List.mem_append.mp hx with h1 | h2
        · exact hprev x h1 s (List.mem_cons_of_mem _ hs)
        · rw [List.mem_singleton] at h2
          subst h2
          exact (List.pairwise_cons.mp hpw).1 s hs)
      ((List.pairwise_cons.mp hpw).2)
      (by simp only [List.length_append, List.length_singleton, List.length_cons,
            List.length_nil] at hlen ⊢; omega)
    constructor
    · simp only [runCalls, hstep, ihres.1, List.length_cons, List.replicate_succ]
    · simp only [runCalls, hstep, ihres.2, List.append_assoc, List.singleton_append]

/-- C2: the rate-limit check compares the pruned count to the threshold
before recording: at or above the threshold it returns limited without
appending `now`, below it it appends `now` and returns not limited; hence
from an empty window, `limit` calls inside one 60-second window are all
admitted and the next call in the same window is blocked; and once 60
seconds have elapsed since the first stored request of a full window, a
new request is admitted again. -/
theorem is_rate_limited_spec (limit : Nat) :
    (∀ (st : RateState) (uid : Int) (now : ℚ),
      limit ≤ ((st uid).filter (fun t => decide (now - t < 60))).length →
      is_rate_limited limit st uid now =
        (true, updateState st uid ((st uid).filter (fun t => decide (now - t < 60))))) ∧
    (∀ (st : RateState) (uid : Int) (now : ℚ),
      ((st uid).filter (fun t => decide (now - t < 60))).length < limit →
      is_rate_limited limit st uid now =
        (false, updateState st uid
          ((st uid).filter (fun t => decide (now - t < 60)) ++ [now]))) ∧
    (∀ (uid : Int) (ts : List ℚ) (tN : ℚ) (st : RateState),
      st uid = [] →
      (ts ++ [tN]).Pairwise (fun a b => b - a < 60) →
      ts.length = limit →
      (runCalls limit uid (ts ++ [tN]) st).1 = List.replicate limit false ++ [true]) ∧
    (∀ (st : RateState) (uid : Int) (now t0 : ℚ) (rest : List ℚ),
      st uid = t0 :: rest →
      rest.length + 1 = limit →
      60 ≤ now - t0 →
      (is_rate_limited limit st uid now).1 = false) := by
  refine ⟨?_, ?_, ?_, ?_⟩
  · intro st uid now h
    simp only [is_rate_limited, if_pos h]
  · intro st uid now h
    simp only [is_rate_limited, if_neg (Nat.not_le.mpr h)]
  · intro uid ts tN st hst hpw hlen
    obtain ⟨hpw1, _, hcross⟩ := List.pairwise_append.mp hpw
    have hadm := runCalls_admits limit uid ts [] st hst
      (by intro x hx; exact absurd hx (List.not_mem_nil x))
      hpw1 (by simp only [List.length_nil]; omega)
    rw [runCalls_append]
    have hfil : ((runCalls limit uid ts st).2 uid).filter
        (fun x => decide (tN - x < 60)) = ts := by
      rw [hadm.2, List.nil_append]
      exact filter_window_eq_self tN ts
        (fun x hx => hcross x hx tN (List.mem_singleton_self tN))
    have hblock : (is_rate_limited limit ((runCalls limit uid ts st).2) uid tN).1 = true := by
      simp only [is_rate_limited, hfil, if_pos (le_of_eq hlen.symm)]
    simp only [runCalls, hadm.1, hlen]
    rw [hblock]
  · intro st uid now t0 rest hst hlen h60
    have hfil : (st uid).filter (fun t => decide (now - t < 60)) =
        rest.filter (fun t => decide (now - t < 60)) := by
      rw [hst]
      simp [List.filter_cons, decide_eq_false (not_lt.mpr h60)]
    have hlt : ¬ limit ≤ ((st uid).filter (fun t => decide (now - t < 60))).length := by
      rw [hfil]
      have := List.length_filter_le (fun t => decide (now - t < 60)) rest
      omega
    simp only [is_rate_limited, if_neg hlt]

/-- Witness for `is_rate_limited_spec`: threshold 2, user 7, calls at times
0, 1, 2 (all inside one window) — two admitted, third blocked — plus the
per-call clauses at a full and a non-full window and recovery at time 60. -/
theorem is_rate_limited_spec_w :
    is_rate_limited 1 (fun _ => [(0 : ℚ)]) 5 1 =
      (true, updateState (fun _ => [(0 : ℚ)]) 5 [(0 : ℚ)]) ∧
    is_rate_limited 3 (fun _ => [(0 : ℚ)]) 5 1 =
      (false, updateState (fun _ => [(0 : ℚ)]) 5 [(0 : ℚ), 1]) ∧
    (runCalls 2 7 ([(0 : ℚ), 1] ++ [2]) (fun _ => [])).1 =
      List.replicate 2 false ++ [true] ∧
    (is_rate_limited 1 (fun _ => [(0 : ℚ)]) 5 60).1 = false := by
  refine ⟨?_, ?_, ?_, ?_⟩
  · have h := (is_rate_limited_spec 1).1 (fun _ => [(0 : ℚ)]) 5 1
      (by norm_num)
    rw [h]
    norm_num
  · have h := (is_rate_limited_spec 3).2.1 (fun _ => [(0 : ℚ)]) 5 1
      (by norm_num)
    rw [h]
    norm_num
  · exact (is_rate_limited_spec 2).2.2.1 7 [(0 : ℚ), 1] 2 (fun _ => []) rfl
      (by norm_num [List.pairwise_cons]) rfl
  · exact (is_rate_limited_spec 1).2.2.2 (fun _ => [(0 : ℚ)]) 5 60 0 [] rfl rfl
      (by norm_num)

/-- C9: immediately after each rate-limit check, every timestamp stored for
the checked user is within the last 60 seconds of the check's current time
(pruning happens lazily inside the check), and the check touches no other
user's sequence. -/
theorem rate_window_invariant (limit : Nat) (st : RateState) (uid : Int) (now : ℚ) :
    (∀ t ∈ (is_rate_limited limit st uid now).2 uid, now - t < 60) ∧
    (∀ u, u ≠ uid → (is_rate_limited limit st uid now).2 u = st u) := by
  constructor
  · intro t ht
    simp only [is_rate_limited] at ht
    split at ht
    · simp only [updateState_same, List.mem_filter] at ht
      exact of_decide_eq_true ht.2
    · simp only [updateState_same] at ht
      rcases List.mem_append.mp ht with h1 | h2
      · rw [List.mem_filter] at h1
        exact of_decide_eq_true h1.2
      · rw [List.mem_singleton] at h2
        subst h2
        norm_num
  · intro u hu
    simp only [is_rate_limited]
    split
    · simp only [updateState_other _ _ _ _ hu]
    · simp only [updateState_other _ _ _ _ hu]

/-- Witness for `rate_window_invariant` at a concrete state. -/
theorem rate_window_invariant_w :
    (1 : ℚ) - 0 < 60 ∧
    (is_rate_limited 3 (fun _ => [(0 : ℚ)]) 42 1).2 7 = [(0 : ℚ)] :=
  ⟨(rate_window_invariant 3 (fun _ => [(0 : ℚ)]) 42 1).1 0
     (by norm_num [is_rate_limited, updateState]),
   (rate_window_invariant 3 (fun _ => [(0 : ℚ)]) 42 1).2 7 (by decide)⟩

/-- The rate-limit verdict determines which state update happened: a `false`
verdict means the current time was appended after pruning. -/
theorem is_rate_limited_false_state (limit : Nat) (st : RateState) (uid : Int)
    (now : ℚ) (h : (is_rate_limited limit st uid now).1 = false) :
    (is_rate_limited limit st uid now).2 uid =
      (st uid).filter (fun t => decide (now - t < 60)) ++ [now] := by
  by_cases hc : limit ≤ ((st uid).filter (fun t => decide (now - t < 60))).length
  · simp only [is_rate_limited, if_pos hc] at h
    exact Bool.noConfusion h
  · simp only [is_rate_limited, if_neg hc, updateState_same]

/-- C10: for an authorized user who is not currently rate limited, the
handler consumes one rate-limit slot — the pruned window plus the current
time is stored — even when the text is not a valid http/https URL and the
request is rejected with no worker submitted. -/
theorem handle_url_records_invalid_url (allowed : List String) (limit : Nat)
    (st : RateState) (uid : Int) (now : ℚ) (text : String)
    (hauth : is_user_allowed allowed uid = true)
    (hnl : (is_rate_limited limit st uid now).1 = false)
    (hurl : (startswith (pyStrip text) "http://" ||
      startswith (pyStrip text) "https://") = false) :
    (handle_url allowed limit st uid now text).newState uid =
      (st uid).filter (fun t => decide (now - t < 60)) ++ [now] ∧
    (handle_url allowed limit st uid now text).submitted = false := by
  have hstate := is_rate_limited_false_state limit st uid now hnl
  constructor
  · simp only [handle_url, hauth, hnl, hurl, Bool.false_eq_true, if_false,
      Bool.true_eq_false, if_true]
    exact hstate
  · simp only [handle_url, hauth, hnl, hurl, Bool.false_eq_true, if_false,
      Bool.true_eq_false, if_true]

/-- Witness for `handle_url_records_invalid_url`: user 42, empty window,
text `"not-a-url"`. -/
theorem handle_url_records_invalid_url_w :
    (handle_url [] 3 (fun _ => []) 42 0 "not-a-url").newState 42 =
      ([] : List ℚ).filter (fun t => decide ((0 : ℚ) - t < 60)) ++ [(0 : ℚ)] ∧
    (handle_url [] 3 (fun _ => []) 42 0 "not-a-url").submitted = false :=
  handle_url_records_invalid_url [] 3 (fun _ => []) 42 0 "not-a-url" rfl rfl rfl

/-- C1 counterexample: with an authorized user (empty allow-list), an empty
rate window and the non-URL text `"not-a-url"`, the handler does invoke the
Access Policy and the Rate Limiter — and the Rate Limiter records the
attempt — refuting the claim that neither is invoked on non-URL input. -/
theorem handle_url_not_a_url_cex :
    (handle_url [] 3 (fun _ => []) 42 0 "not-a-url").accessChecked = true ∧
    (handle_url [] 3 (fun _ => []) 42 0 "not-a-url").rateChecked = true ∧
    (handle_url [] 3 (fun _ => []) 42 0 "not-a-url").newState 42 = [(0 : ℚ)] :=
  ⟨rfl, rfl, rfl⟩

/-- C1 (amended): for every non-command text whose stripped form does not
start with `http://` or `https://`, the handler never submits a worker —
the pipeline's worker component is `none`, so the Fetcher never runs — but
the Access Policy is consulted first, and for an authorized, not
rate-limited user the Rate Limiter is consulted too and the reply is the
InvalidUrl-style message. -/
theorem handle_url_invalid_url_spec (allowed : List String) (limit : Nat)
    (st : RateState) (uid : Int) (now : ℚ) (text : String)
    (hurl : (startswith (pyStrip text) "http://" ||
      startswith (pyStrip text) "https://") = false) :
    (handle_url allowed limit st uid now text).submitted = false ∧
    (∀ (maxSize : Nat) (wenv : WorkerEnv),
      (handleMessage allowed limit st uid now text maxSize wenv).2 = none) ∧
    (handle_url allowed limit st uid now text).accessChecked = true ∧
    (is_user_allowed allowed uid = true →
      (is_rate_limited limit st uid now).1 = false →
      (handle_url allowed limit st uid now text).rateChecked = true ∧
      (handle_url allowed limit st uid now text).reply =
        some "Please send a valid http/https URL.") := by
  have hsub : (handle_url allowed limit st uid now text).submitted = false := by
    by_cases hauth : is_user_allowed allowed uid = false
    · simp only [handle_url, if_pos hauth]
    · by_cases hrl : (is_rate_limited limit st uid now).1
      · simp only [handle_url, if_neg hauth, if_pos hrl]
      · simp only [handle_url, if_neg hauth, if_neg hrl, hurl, Bool.false_eq_true,
          if_false]
  refine ⟨hsub, ?_, ?_, ?_⟩
  · intro maxSize wenv
    simp only [handleMessage, hsub, Bool.false_eq_true, if_false]
  · by_cases hauth : is_user_allowed allowed uid = false
    · simp only [handle_url, if_pos hauth]
    · by_cases hrl : (is_rate_limited limit st uid now).1
      · simp only [handle_url, if_neg hauth, if_pos hrl]
      · simp only [handle_url, if_neg hauth, if_neg hrl, hurl, Bool.false_eq_true,
          if_false]
  · intro hauth hnl
    have hauth' : ¬ is_user_allowed allowed uid = false := by
      simp [hauth]
    have hrl : ¬ ((is_rate_limited limit st uid now).1 = true) := by
      simp [hnl]
    constructor
    · simp only [handle_url, if_neg hauth', if_neg hrl, hurl, Bool.false_eq_true,
        if_false]
    · simp only [handle_url, if_neg hauth', if_neg hrl, hurl, Bool.false_eq_true,
        if_false]

/-- A worker environment for the amended-C1 witness (never reached, since no
worker is submitted). -/
def wenvIdle : WorkerEnv :=
  { fetchEnv := { get := .error "unused", tempName := "/tmp/tmpw3",
                  sniff := fun _ => "application/octet-stream" }
    progress := fun _ => .ok ()
    editFetchError := .ok (), editUploading := .ok (), sendResult := .ok ()
    deleteResult := .ok (), editException := .ok ()
    thumbEnv := { imageResult := .ok [1], videoResult := .ok [1] }
    urlPath := "" }

/-- Witness for `handle_url_invalid_url_spec` at the text `"not-a-url"`. -/
theorem handle_url_invalid_url_spec_w :
    (handle_url [] 3 (fun _ => []) 42 0 "not-a-url").submitted = false ∧
    (handleMessage [] 3 (fun _ => []) 42 0 "not-a-url" MAX_FILE_SIZE wenvIdle).2 = none ∧
    (handle_url [] 3 (fun _ => []) 42 0 "not-a-url").reply =
      some "Please send a valid http/https URL." := by
  have h := handle_url_invalid_url_spec [] 3 (fun _ => []) 42 0 "not-a-url" rfl
  exact ⟨h.1, h.2.1 MAX_FILE_SIZE wenvIdle, (h.2.2.2 rfl rfl).2⟩

/-- Response for the leak scenario: one chunk is delivered — so the
temporary file exists — and then the stream raises. -/
def respLeak : HttpResp :=
  { statusError := none, contentLength := some 100, chunks := [[1, 2, 3]],
    streamErr := some "connection reset by peer" }

/-- Worker environment for the leak scenario: every Telegram call succeeds;
only the HTTP stream fails. -/
def envLeak : WorkerEnv :=
  { fetchEnv := { get := .ok respLeak, tempName := "/tmp/tmpleak",
                  sniff := fun _ => "application/octet-stream" }
    progress := fun _ => .ok ()
    editFetchError := .ok (), editUploading := .ok (), sendResult := .ok ()
    deleteResult := .ok (), editException := .ok ()
    thumbEnv := { imageResult := .ok [1], videoResult := .ok [1] }
    urlPath := "/file.bin" }

/-- C4 (code bug): a fetch that fails mid-stream after the temporary file
was created ends the worker task with the temporary file still on disk.
`download_file` converts the exception to `(None, message)` and discards
the temp path, so no exit path of `download_and_upload` can unlink it —
contradicting the cleanup-on-every-exit-path invariant. -/
theorem download_and_upload_leaks_temp :
    (download_and_upload MAX_FILE_SIZE envLeak).tempExists = true ∧
    (download_and_upload MAX_FILE_SIZE envLeak).upload = none :=
  ⟨rfl, rfl⟩

/-- The caption is `"Downloaded: "` plus the derived file name in every
routing branch. -/
theorem mkUploadCall_caption (m f : String) (th : Option (List Nat)) :
    (mkUploadCall m f th).caption = "Downloaded: " ++ f := by
  unfold mkUploadCall
  split_ifs <;> rfl

/-- The photo and video branches pass the produced thumbnail through. -/
theorem mkUploadCall_thumb (m f : String) (th : Option (List Nat))
    (h : startswith m "image/" = true ∨ startswith m "video/" = true) :
    (mkUploadCall m f th).thumb = th := by
  unfold mkUploadCall
  rcases h with h | h
  · simp [h]
  · by_cases hi : startswith m "image/" <;> simp [hi, h]

/-- C5: when the fetch succeeded and the pre-upload status edit does not
raise, the worker performs exactly one send call, routed by the sniffed
content-type prefix (`image/*` photo, `video/*` video with the streaming
flag, `audio/*` audio, otherwise document), whose caption contains the
file name derived from the URL path's basename (or the fallback literal
when the path has no basename) and whose thumbnail is the Thumbnailer's
output whenever one was produced. -/
theorem dispatcher_routing_spec (maxSize : Nat) (env : WorkerEnv)
    (p mimeType : String)
    (hfetch : (download_file maxSize env.fetchEnv (some env.progress)).1 =
      (some p, mimeType))
    (hedit : env.editUploading = .ok ()) :
    ∃ call, (download_and_upload maxSize env).upload = some call ∧
      call.caption = "Downloaded: " ++ fileNameOf env.urlPath ∧
      (basename env.urlPath = "" → call.caption = "Downloaded: downloaded_file") ∧
      (startswith mimeType "image/" = true → call.kind = UploadKind.photo) ∧
      (startswith mimeType "image/" = false → startswith mimeType "video/" = true →
        call.kind = UploadKind.video ∧ call.supports_streaming = true) ∧
      (startswith mimeType "image/" = false → startswith mimeType "video/" = false →
        startswith mimeType "audio/" = true → call.kind = UploadKind.audio) ∧
      (startswith mimeType "image/" = false → startswith mimeType "video/" = false →
        startswith mimeType "audio/" = false → call.kind = UploadKind.document) ∧
      (∀ b, producedThumb env mimeType = some b → call.thumb = some b) := by
  have hup : (download_and_upload maxSize env).upload =
      some (mkUploadCall mimeType (fileNameOf env.urlPath) (producedThumb env mimeType)) := by
    cases hsr : env.sendResult with
    | error e => simp only [download_and_upload, hfetch, hedit, hsr]
    | ok u => simp only [download_and_upload, hfetch, hedit, hsr]
  refine ⟨mkUploadCall mimeType (fileNameOf env.urlPath) (producedThumb env mimeType),
    hup, mkUploadCall_caption _ _ _, ?_, ?_, ?_, ?_, ?_, ?_⟩
  · intro hb
    rw [mkUploadCall_caption]
    rw [fileNameOf, if_pos hb]
    rfl
  · intro h1
    simp [mkUploadCall, h1]
  · intro h1 h2
    simp [mkUploadCall, h1, h2]
  · intro h1 h2 h3
    simp [mkUploadCall, h1, h2, h3]
  · intro h1 h2 h3
    simp [mkUploadCall, h1, h2, h3]
  · intro b hb
    have hcond : (startswith mimeType "image/" || startswith mimeType "video/") = true := by
      by_contra hc
      rw [producedThumb, if_neg hc] at hb
      exact Option.noConfusion hb
    rw [mkUploadCall_thumb mimeType _ _ (Bool.or_eq_true_iff.mp hcond)]
    exact hb

/-- Response for the routing witness: a one-byte body sniffed as a PNG. -/
def respRoute : HttpResp :=
  { statusError := none, contentLength := some 1, chunks := [[7]], streamErr := none }

/-- Worker environment for the routing witness: fetch succeeds, every
Telegram call succeeds, PIL produces thumbnail bytes `[9]`. -/
def envRoute : WorkerEnv :=
  { fetchEnv := { get := .ok respRoute, tempName := "/tmp/tmpok",
                  sniff := fun _ => "image/png" }
    progress := fun _ => .ok ()
    editFetchError := .ok (), editUploading := .ok (), sendResult := .ok ()
    deleteResult := .ok (), editException := .ok ()
    thumbEnv := { imageResult := .ok [9], videoResult := .ok [8] }
    urlPath := "/pics/cat.png" }

/-- Witness for `dispatcher_routing_spec`: a sniffed PNG is sent as a photo
with the basename caption and the produced thumbnail attached. -/
theorem dispatcher_routing_spec_w :
    ∃ call, (download_and_upload 10 envRoute).upload = some call ∧
      call.kind = UploadKind.photo ∧
      call.caption = "Downloaded: cat.png" ∧
      call.thumb = some [9] := by
  obtain ⟨call, hup, hcap, _, himg, _, _, _, hth⟩ :=
    dispatcher_routing_spec 10 envRoute "/tmp/tmpok" "image/png" rfl rfl
  exact ⟨call, hup, himg rfl, by rw [hcap]; rfl, hth [9] rfl⟩

end UpBot
